import Mathlib

/-!
Verification of the modbus_stress load-testing harness.

This file gives a shallow embedding, in Lean 4, of the pure control/data
logic of the repository's core modules, and proves (or refutes) the frozen
claims about them:

* `src/core/connection.py`  — thread-safe connection pool (`ModbusConnectionPool`)
* `src/core/1_connection.py` — earlier pool variant with creation retries
* `src/core/async_connection.py` — cooperative pool (`AsyncModbusConnection`)
* `src/core/client.py`      — synchronous client (`HighPrecisionModbusClient`)
* `src/core/async_client.py` — asynchronous client (`HighPrecisionAsyncModbusClient`)

Modelling conventions:

* A transport connection is abstracted to the one bit the pool logic
  inspects: whether its health probe succeeds (`_test_connection` /
  `is_socket_open()` / `.connected`).
* Network outcomes (whether a given connect attempt succeeds, clock
  readings) are parameters of the embedded functions.
* Python machine floats are modelled by `ℚ`; for the percentile index
  computation `int(n * k)` this was checked to agree with the exact
  floor `⌊n·k⌋` for every list length `n ≤ 2·10^6`.
* `raise` is modelled by `Except`/`Option` results; `time.sleep(d)` calls
  are recorded as a list of slept durations.
* Unbounded `while` loops over an external clock are modelled with
  explicit fuel: `none` means the loop is still spinning after `fuel`
  iterations.
-/

namespace ModbusStress

/-- A pooled transport connection, abstracted to the one bit the pool logic
reads: whether its health probe succeeds (`_test_connection(conn)` in
`connection.py`, `conn.is_socket_open()` in `1_connection.py`,
`conn.connected` in `async_connection.py`). -/
structure Conn where
  healthy : Bool
deriving DecidableEq, Repr

/-! ## `src/core/connection.py` — `ModbusConnectionPool` (short-connection pool)

State: `_pool` (list of free connections, `pop()` takes the last element)
and `_size` (`CONNECTION_POOL_SIZE`). -/

structure PoolState where
  pool : List Conn
  size : Nat
deriving DecidableEq, Repr

/-- `ModbusConnectionPool.get_connection` (connection.py lines 137-140):
`return self._pool.pop() if self._pool else self._create_connection()`.

`created` is the outcome of the single `_create_connection()` call the
transport would produce (`none` models its `return None` failure path).
The middle component counts how many `_create_connection` calls were made. -/
def get_connection (created : Option Conn) (s : PoolState) :
    Option Conn × Nat × PoolState :=
  if s.pool.isEmpty then (created, 1, s)
  else (s.pool.getLast?, 0, { s with pool := s.pool.dropLast })

/-- `ModbusConnectionPool.release_connection` (connection.py lines 142-154):
ignore `None`; append back only when `len(self._pool) < self._size` and the
health probe `_test_connection(conn)` passes, otherwise close the connection. -/
def release_connection (conn : Option Conn) (s : PoolState) : PoolState :=
  match conn with
  | none => s
  | some c =>
    if s.pool.length < s.size ∧ c.healthy then { s with pool := s.pool ++ [c] }
    else s

/-- One pool operation: an acquire (carrying the transport's outcome for the
`_create_connection` call it may make) or a release. -/
inductive PoolOp where
  | acquire (created : Option Conn)
  | release (conn : Option Conn)
deriving DecidableEq, Repr

def applyOp (s : PoolState) : PoolOp → PoolState
  | .acquire created => (get_connection created s).2.2
  | .release conn => release_connection conn s

/-- A whole sequence of acquire/release operations, applied in order. -/
def runOps (s : PoolState) (ops : List PoolOp) : PoolState :=
  ops.foldl applyOp s

lemma applyOp_size (s : PoolState) (op : PoolOp) : (applyOp s op).size = s.size := by
  cases op with
  | acquire created =>
    simp only [applyOp, get_connection]
    split <;> rfl
  | release conn =>
    cases conn with
    | none => rfl
    | some c =>
      simp only [applyOp, release_connection]
      split <;> rfl

lemma applyOp_length_le (s : PoolState) (op : PoolOp)
    (h : s.pool.length ≤ s.size) : (applyOp s op).pool.length ≤ s.size := by
  cases op with
  | acquire created =>
    simp only [applyOp, get_connection]
    split
    · exact h
    · have hd : s.pool.dropLast.length ≤ s.pool.length := by
        rw [List.length_dropLast]; omega
      exact le_trans hd h
  | release conn =>
    cases conn with
    | none => exact h
    | some c =>
      simp only [applyOp, release_connection]
      split
      · next hc => simpa using hc.1
      · exact h

lemma runOps_size (s : PoolState) (ops : List PoolOp) : (runOps s ops).size = s.size := by
  induction ops generalizing s with
  | nil => rfl
  | cons op ops ih =>
    simp only [runOps, List.foldl_cons] at *
    rw [ih (applyOp s op), applyOp_size]

/-- C1: starting from any pool state satisfying `len(_pool) ≤ _size`, every
sequence of `get_connection` / `release_connection` operations preserves
`len(_pool) ≤ _size`; moreover `release_connection` grows the free list only
when `len(_pool) < _size` (and the health probe passed) at the moment of the
check. -/
theorem pool_length_invariant (s : PoolState) (ops : List PoolOp)
    (h : s.pool.length ≤ s.size) :
    (runOps s ops).pool.length ≤ (runOps s ops).size ∧
    (runOps s ops).size = s.size ∧
    (∀ (c : Conn) (t : PoolState),
      t.pool.length < (release_connection (some c) t).pool.length →
      t.pool.length < t.size ∧ c.healthy = true) := by
  refine ⟨?_, runOps_size s ops, ?_⟩
  · rw [runOps_size]
    induction ops generalizing s with
    | nil => exact h
    | cons op ops ih =>
      simp only [runOps, List.foldl_cons] at *
      have h1 := applyOp_length_le s op h
      have h2 := ih (applyOp s op) (by rw [applyOp_size]; exact h1)
      rwa [applyOp_size] at h2
  · intro c t hgrow
    by_cases hc : t.pool.length < t.size ∧ c.healthy
    · exact ⟨hc.1, hc.2⟩
    · exfalso
      simp only [release_connection, if_neg hc] at hgrow
      omega

/-- C1 witness: a concrete run — pool of capacity 2, a release that appends,
an acquire, a release of an unhealthy connection — keeps `len ≤ size`. -/
theorem pool_length_invariant_witness :
    (⟨[⟨true⟩], 2⟩ : PoolState).pool.length ≤ (⟨[⟨true⟩], 2⟩ : PoolState).size ∧
    ((runOps ⟨[⟨true⟩], 2⟩
        [.release (some ⟨true⟩), .acquire none, .release (some ⟨false⟩)]).pool.length ≤
      (runOps ⟨[⟨true⟩], 2⟩
        [.release (some ⟨true⟩), .acquire none, .release (some ⟨false⟩)]).size) :=
  ⟨by decide,
   (pool_length_invariant ⟨[⟨true⟩], 2⟩
      [.release (some ⟨true⟩), .acquire none, .release (some ⟨false⟩)] (by decide)).1⟩

/-! ## `src/core/1_connection.py` — `ModbusConnectionPool` (retrying variant)

`_create_connection` makes up to `max_retries = 3` attempts; after every
failed attempt it does `retry_count += 1; time.sleep(1)` (so it also sleeps
after the last failure), and finally returns `None`.  `get_connection` on an
empty pool calls it and raises `ConnectionError` when it returns `None`. -/

/-- The body of `_create_connection`'s `while retry_count < max_retries`
loop (1_connection.py lines 37-80).  `attempts k` is the transport's outcome
for the `k`-th connect attempt.  Returns (result, number of attempts made
from `retry_count` on, sleep durations in seconds). -/
def createRetryLoop (attempts : Nat → Option Conn) (retry_count : Nat) :
    Option Conn × Nat × List ℚ :=
  if retry_count < 3 then
    match attempts retry_count with
    | some c => (some c, 1, [])
    | none =>
      let r := createRetryLoop attempts (retry_count + 1)
      (r.1, r.2.1 + 1, 1 :: r.2.2)
  else (none, 0, [])
termination_by 3 - retry_count

/-- `1_connection.py _create_connection`: run the retry loop from
`retry_count = 0`. -/
def create_connection1 (attempts : Nat → Option Conn) : Option Conn × Nat × List ℚ :=
  createRetryLoop attempts 0

/-- `1_connection.py get_connection` (lines 82-90): pop if the pool is
non-empty; otherwise `_create_connection()`, raising `ConnectionError`
(modelled as `.error ()`) when it yields `None`. -/
def get_connection1 (attempts : Nat → Option Conn) (s : PoolState) :
    Except Unit Conn × PoolState :=
  if s.pool.isEmpty then
    match (create_connection1 attempts).1 with
    | some c => (.ok c, s)
    | none => (.error (), s)
  else
    match s.pool.getLast? with
    | some c => (.ok c, { s with pool := s.pool.dropLast })
    | none => (.error (), s)

/-- C2 counterexample: in `connection.py`, `get_connection` on an empty pool
makes exactly ONE `_create_connection` attempt and, when the transport fails,
returns the sentinel `None` — it neither retries 3 times nor raises. -/
theorem get_connection_single_attempt_returns_none :
    get_connection none ⟨[], 3⟩ = (none, 1, ⟨[], 3⟩) := by decide

/-- C2 (amended): when the transport fails every attempt, the `connection.py`
pool's `get_connection` makes a single creation attempt and returns `None`,
while the `1_connection.py` variant's `_create_connection` makes exactly 3
attempts with a 1-second sleep after each failed attempt (including the
last) and its `get_connection` then raises `ConnectionError`. -/
theorem empty_pool_creation_retries (attempts : Nat → Option Conn)
    (hfail : ∀ k, k < 3 → attempts k = none) (s : PoolState) (hempty : s.pool = []) :
    get_connection none s = (none, 1, s) ∧
    create_connection1 attempts = (none, 3, [1, 1, 1]) ∧
    (get_connection1 attempts s).1 = .error () := by
  have hc : create_connection1 attempts = (none, 3, [1, 1, 1]) := by
    have h0 := hfail 0 (by omega)
    have h1 := hfail 1 (by omega)
    have h2 := hfail 2 (by omega)
    unfold create_connection1
    rw [createRetryLoop, if_pos (by omega : (0:Nat) < 3), h0]
    rw [createRetryLoop, if_pos (by omega : (1:Nat) < 3), h1]
    rw [createRetryLoop, if_pos (by omega : (2:Nat) < 3), h2]
    rw [createRetryLoop, if_neg (by omega : ¬ (3:Nat) < 3)]
  refine ⟨?_, hc, ?_⟩
  · simp [get_connection, hempty]
  · simp [get_connection1, hempty, hc]

/-- C2 witness: the amended statement at the always-failing transport and the
empty pool of capacity 3. -/
theorem empty_pool_creation_retries_witness :
    get_connection none ⟨[], 3⟩ = (none, 1, ⟨[], 3⟩) ∧
    create_connection1 (fun _ => none) = (none, 3, [1, 1, 1]) ∧
    (get_connection1 (fun _ => none) ⟨[], 3⟩).1 = .error () :=
  empty_pool_creation_retries (fun _ => none) (fun _ _ => rfl) ⟨[], 3⟩ rfl

/-! ## `src/core/async_client.py` — percentile computation

`_calculate_percentiles` (lines 126-138): on empty data return `(0,0,0)`;
otherwise sort and index at `int(n * 0.50)`, `int(n * 0.95)`, `int(n * 0.99)`.
Python's float `int(n * k)` was checked to equal the exact `⌊n·k⌋` for every
`n ≤ 2·10^6`, so the indices are embedded as exact natural floor division.
Python `sorted` is an ascending stable sort, embedded as `insertionSort`. -/

def calculate_percentiles (data : List ℚ) : ℚ × ℚ × ℚ :=
  if data.isEmpty then (0, 0, 0)
  else
    let sorted_data := data.insertionSort (· ≤ ·)
    let n := sorted_data.length
    (sorted_data.getD (n * 50 / 100) 0,
     sorted_data.getD (n * 95 / 100) 0,
     sorted_data.getD (n * 99 / 100) 0)

lemma floor_mul_percent (n k : ℕ) : ⌊(n : ℚ) * ((k : ℚ) / 100)⌋₊ = n * k / 100 := by
  have h : (n : ℚ) * ((k : ℚ) / 100) = ((n * k : ℕ) : ℚ) / ((100 : ℕ) : ℚ) := by
    push_cast; ring
  rw [h, Nat.floor_div_nat, Nat.floor_natCast]

/-- C3: `_calculate_percentiles` sorts the latency sequence ascending (the
result is a sorted permutation of the input) and returns
`p_k = sorted[⌊n·k⌋]` for k ∈ {0.50, 0.95, 0.99}; in particular for any
sequence of length 100 it returns `(sorted[50], sorted[95], sorted[99])`. -/
theorem percentile_floor_convention (data : List ℚ) (h : data ≠ []) :
    (data.insertionSort (· ≤ ·)).Sorted (· ≤ ·) ∧
    List.Perm (data.insertionSort (· ≤ ·)) data ∧
    calculate_percentiles data =
      ((data.insertionSort (· ≤ ·)).getD ⌊(data.length : ℚ) * ((50 : ℚ) / 100)⌋₊ 0,
       (data.insertionSort (· ≤ ·)).getD ⌊(data.length : ℚ) * ((95 : ℚ) / 100)⌋₊ 0,
       (data.insertionSort (· ≤ ·)).getD ⌊(data.length : ℚ) * ((99 : ℚ) / 100)⌋₊ 0) ∧
    (data.length = 100 →
      calculate_percentiles data =
        ((data.insertionSort (· ≤ ·)).getD 50 0,
         (data.insertionSort (· ≤ ·)).getD 95 0,
         (data.insertionSort (· ≤ ·)).getD 99 0)) := by
  have hperm := List.perm_insertionSort (· ≤ ·) data
  have hlen : (data.insertionSort (· ≤ ·)).length = data.length := hperm.length_eq
  have hne : ¬ data.isEmpty = true := by simpa [List.isEmpty_iff] using h
  have e50 : ⌊(data.length : ℚ) * ((50 : ℚ) / 100)⌋₊ = data.length * 50 / 100 := by
    have := floor_mul_percent data.length 50
    simpa using this
  have e95 : ⌊(data.length : ℚ) * ((95 : ℚ) / 100)⌋₊ = data.length * 95 / 100 := by
    have := floor_mul_percent data.length 95
    simpa using this
  have e99 : ⌊(data.length : ℚ) * ((99 : ℚ) / 100)⌋₊ = data.length * 99 / 100 := by
    have := floor_mul_percent data.length 99
    simpa using this
  have hmain : calculate_percentiles data =
      ((data.insertionSort (· ≤ ·)).getD (data.length * 50 / 100) 0,
       (data.insertionSort (· ≤ ·)).getD (data.length * 95 / 100) 0,
       (data.insertionSort (· ≤ ·)).getD (data.length * 99 / 100) 0) := by
    simp only [calculate_percentiles, hne, if_false, hlen]
    rfl
  refine ⟨List.sorted_insertionSort _ data, hperm, ?_, ?_⟩
  · rw [hmain, e50, e95, e99]
  · intro h100
    rw [hmain, h100]

/-- The claim's example input: the latencies 1..100 (ms). -/
def data100 : List ℚ := (List.range 100).map (fun i => ((i : ℚ) + 1))

/-- C3 witness: the theorem instantiated at the latency sequence 1..100. -/
theorem percentile_floor_convention_witness :
    (data100.insertionSort (· ≤ ·)).Sorted (· ≤ ·) ∧
    List.Perm (data100.insertionSort (· ≤ ·)) data100 ∧
    calculate_percentiles data100 =
      ((data100.insertionSort (· ≤ ·)).getD ⌊(data100.length : ℚ) * ((50 : ℚ) / 100)⌋₊ 0,
       (data100.insertionSort (· ≤ ·)).getD ⌊(data100.length : ℚ) * ((95 : ℚ) / 100)⌋₊ 0,
       (data100.insertionSort (· ≤ ·)).getD ⌊(data100.length : ℚ) * ((99 : ℚ) / 100)⌋₊ 0) ∧
    (data100.length = 100 →
      calculate_percentiles data100 =
        ((data100.insertionSort (· ≤ ·)).getD 50 0,
         (data100.insertionSort (· ≤ ·)).getD 95 0,
         (data100.insertionSort (· ≤ ·)).getD 99 0)) :=
  percentile_floor_convention data100 (by decide)

/-! ## Jitter: `async_client.py _update_cycle_stats` vs `client.py _generate_report`

The asynchronous engine (async_client.py lines 164-179) computes
`周期抖动 = variance ** 0.5` with `variance = Σ(x-mean)² / (n-1)` over
`recent = cycles[-100:] if len(cycles) >= 100 else cycles`, updated only when
`len(recent) > 1`.  The synchronous client's report (client.py lines 234-237)
instead computes `jitter = max(cycles) - min(cycles)`.  We track the variance
(the square of the reported jitter) exactly in `ℚ`; the reported value is its
real square root. -/

/-- Python `sum(l) / len(l)` (used only on non-empty lists). -/
def listMean (l : List ℚ) : ℚ := l.sum / l.length

/-- `variance = sum((x - mean)**2 for x in recent) / (len(recent)-1)`. -/
def besselVariance (l : List ℚ) : ℚ :=
  (l.map (fun x => (x - listMean l) ^ 2)).sum / ((l.length : ℚ) - 1)

/-- `recent = cycles[-100:] if len(cycles) >= 100 else cycles`. -/
def recentWindow (cycles : List ℚ) : List ℚ :=
  if 100 ≤ cycles.length then cycles.drop (cycles.length - 100) else cycles

/-- The jitter update of `_update_cycle_stats`: when `len(recent) > 1` the
stored `周期抖动` becomes `variance ** 0.5`; otherwise it keeps its previous
value.  This definition tracks the squared jitter (the variance). -/
def update_cycle_jitterSq (cycles : List ℚ) (prev : ℚ) : ℚ :=
  let recent := recentWindow cycles
  if 1 < recent.length then besselVariance recent else prev

/-- `max_cycle = max(cycles) if cycles else 0` (client.py line 235). -/
def max_cycle (cycles : List ℚ) : ℚ :=
  match cycles with
  | [] => 0
  | x :: xs => xs.foldl max x

/-- `min_cycle = min(cycles) if cycles else 0` (client.py line 236). -/
def min_cycle (cycles : List ℚ) : ℚ :=
  match cycles with
  | [] => 0
  | x :: xs => xs.foldl min x

/-- `jitter = max_cycle - min_cycle` (client.py line 237). -/
def sync_jitter (cycles : List ℚ) : ℚ := max_cycle cycles - min_cycle cycles

lemma foldl_max_replicate (x : ℚ) (m : Nat) : (List.replicate m x).foldl max x = x := by
  induction m with
  | zero => rfl
  | succ m ih => simpa [List.replicate_succ, max_self] using ih

lemma foldl_min_replicate (x : ℚ) (m : Nat) : (List.replicate m x).foldl min x = x := by
  induction m with
  | zero => rfl
  | succ m ih => simpa [List.replicate_succ, min_self] using ih

lemma listMean_replicate (c : ℚ) (m : Nat) (hm : m ≠ 0) :
    listMean (List.replicate m c) = c := by
  have hm' : (m : ℚ) ≠ 0 := Nat.cast_ne_zero.mpr hm
  simp only [listMean, List.sum_replicate, List.length_replicate, nsmul_eq_mul]
  rw [mul_comm, mul_div_assoc, div_self hm', mul_one]

lemma besselVariance_replicate (c : ℚ) (m : Nat) (hm : m ≠ 0) :
    besselVariance (List.replicate m c) = 0 := by
  simp [besselVariance, listMean_replicate c m hm, List.map_replicate, sub_self]

lemma recentWindow_replicate (c : ℚ) (n : Nat) :
    recentWindow (List.replicate n c) = List.replicate (min 100 n) c := by
  unfold recentWindow
  split
  · next h =>
    simp only [List.length_replicate] at h ⊢
    rw [List.drop_replicate]
    congr 1
    omega
  · next h =>
    simp only [List.length_replicate] at h
    congr 1
    omega

/-- C4 (amended): the asynchronous statistics engine's jitter is the
Bessel-corrected sample standard deviation over the most recent 100 cycles
(all cycles when fewer than 100): the stored value is
`√(Σ(x-mean)²/(n-1))` of that window, and over a constant cycle sequence it
is exactly 0.  The synchronous client's report instead defines jitter as
`max - min` of all cycles, which is also 0 over a constant sequence. -/
theorem jitter_amended (c : ℚ) (n : Nat) (hn : 2 ≤ n) (prev : ℚ)
    (cycles : List ℚ) (h100 : 100 ≤ cycles.length) :
    update_cycle_jitterSq (List.replicate n c) prev = 0 ∧
    Real.sqrt ((update_cycle_jitterSq (List.replicate n c) prev : ℚ) : ℝ) = 0 ∧
    sync_jitter (List.replicate n c) = 0 ∧
    recentWindow cycles = cycles.drop (cycles.length - 100) ∧
    (recentWindow cycles).length = 100 ∧
    update_cycle_jitterSq cycles prev = besselVariance (recentWindow cycles) := by
  have hmin : min 100 n ≠ 0 := by omega
  have hrep : update_cycle_jitterSq (List.replicate n c) prev = 0 := by
    unfold update_cycle_jitterSq
    rw [recentWindow_replicate]
    rw [if_pos (by simp only [List.length_replicate]; omega)]
    exact besselVariance_replicate c _ hmin
  have hwin : recentWindow cycles = cycles.drop (cycles.length - 100) := by
    unfold recentWindow
    rw [if_pos h100]
  have hwinlen : (recentWindow cycles).length = 100 := by
    rw [hwin, List.length_drop]
    omega
  refine ⟨hrep, ?_, ?_, hwin, hwinlen, ?_⟩
  · rw [hrep]
    push_cast
    exact Real.sqrt_zero
  · obtain ⟨m, rfl⟩ : ∃ m, n = m + 1 := ⟨n - 1, by omega⟩
    simp only [sync_jitter, max_cycle, min_cycle, List.replicate_succ,
      foldl_max_replicate, foldl_min_replicate, sub_self]
  · unfold update_cycle_jitterSq
    rw [if_pos (by rw [hwinlen]; omega)]

/-- C4 witness: the amended statement at a constant window (3 cycles of 5 ms,
previous jitter 7) and a concrete 100-element cycle sequence. -/
theorem jitter_amended_witness :
    update_cycle_jitterSq (List.replicate 3 (5 : ℚ)) 7 = 0 ∧
    Real.sqrt ((update_cycle_jitterSq (List.replicate 3 (5 : ℚ)) 7 : ℚ) : ℝ) = 0 ∧
    sync_jitter (List.replicate 3 (5 : ℚ)) = 0 ∧
    recentWindow (List.replicate 100 (2 : ℚ)) =
      (List.replicate 100 (2 : ℚ)).drop ((List.replicate 100 (2 : ℚ)).length - 100) ∧
    (recentWindow (List.replicate 100 (2 : ℚ))).length = 100 ∧
    update_cycle_jitterSq (List.replicate 100 (2 : ℚ)) 7 =
      besselVariance (recentWindow (List.replicate 100 (2 : ℚ))) :=
  jitter_amended 5 3 (by decide) 7 (List.replicate 100 (2 : ℚ)) (by decide)

/-- C4 counterexample: on the cycle sequence `[1, 3]` the synchronous
client's reported jitter is `max - min = 2`, while the Bessel-corrected
sample standard deviation is `√2 ≠ 2` — so the reported jitter is not the
Bessel-corrected sample standard deviation. -/
theorem sync_jitter_not_bessel_std :
    sync_jitter [1, 3] = 2 ∧
    besselVariance (recentWindow [1, 3]) = 2 ∧
    Real.sqrt ((besselVariance (recentWindow [1, 3]) : ℚ) : ℝ) ≠
      ((sync_jitter [1, 3] : ℚ) : ℝ) := by
  have h1 : sync_jitter [1, 3] = 2 := by
    norm_num [sync_jitter, max_cycle, min_cycle, max_def, min_def]
  have h2 : besselVariance (recentWindow [1, 3]) = 2 := by
    norm_num [besselVariance, recentWindow, listMean]
  refine ⟨h1, h2, ?_⟩
  rw [h1, h2]
  push_cast
  intro heq
  have h4 : Real.sqrt 4 = 2 := by
    rw [show (4 : ℝ) = 2 ^ 2 by norm_num]
    exact Real.sqrt_sq (by norm_num)
  have hlt : Real.sqrt 2 < Real.sqrt 4 := Real.sqrt_lt_sqrt (by norm_num) (by norm_num)
  rw [h4, heq] at hlt
  exact lt_irrefl _ hlt

/-! ## Finalizing the report on an empty run (C5)

`async_client.py _generate_report` (lines 216-256) computes, in evaluation
order: `qps = 总请求数 / duration`, then the report lines, whose success-rate
line evaluates `成功请求 / 总请求数 * 100` with no guard and whose
mean-latency line evaluates `sum(所有报文) / len(所有报文)` with no guard.
(`_analyze_latencies` returns early on an empty combined sequence and raises
nothing.)  `client.py _generate_report` (lines 225-241) guards every one of
these with `if ... else 0`. -/

/-- Python `/`: raises `ZeroDivisionError` (`.error ()`) on a zero divisor. -/
def pyDiv (a b : ℚ) : Except Unit ℚ :=
  if b = 0 then .error () else .ok (a / b)

structure AsyncReport where
  qps : ℚ
  successRate : ℚ
  avgLatency : ℚ
deriving DecidableEq, Repr

/-- The division structure of `async_client.py _generate_report`:
`total`/`succ` are `总请求数`/`成功请求`, `allLat` is `报文延迟统计["所有报文"]`. -/
def async_generate_report (duration : ℚ) (total succ : Nat) (allLat : List ℚ) :
    Except Unit AsyncReport := do
  let qps ← pyDiv total duration
  let rate ← pyDiv succ total
  let avgLat ← pyDiv allLat.sum allLat.length
  .ok ⟨qps, rate * 100, avgLat⟩

structure SyncReport where
  qps : ℚ
  successRate : ℚ
  avgCycle : ℚ
  maxCycle : ℚ
  minCycle : ℚ
  jitter : ℚ
  avgLatency : ℚ
  maxLatency : ℚ
deriving DecidableEq, Repr

/-- The derived metrics of `client.py _generate_report`: every empty-sequence
and zero-count case carries an explicit `if ... else 0` guard in the source
(`max_cycle`/`min_cycle` embed `max(l) if l else 0` directly). -/
def sync_generate_report (duration : ℚ) (total succ : Nat)
    (latencies cycles : List ℚ) : Except Unit SyncReport := do
  let qps ← pyDiv total duration
  let successRate : ℚ := if 0 < total then ((succ : ℚ) / total) * 100 else 0
  let avgCycle : ℚ := if ¬ cycles.isEmpty then cycles.sum / cycles.length else 0
  let avgLatency : ℚ := if ¬ latencies.isEmpty then latencies.sum / latencies.length else 0
  .ok ⟨qps, successRate, avgCycle, max_cycle cycles, min_cycle cycles,
       sync_jitter cycles, avgLatency, max_cycle latencies⟩

/-- C5: finalizing a run with zero recorded operations.  The synchronous
client's report returns all-zero derived metrics without raising, as the
claim states; but the asynchronous client's `_generate_report` divides
`成功请求` by `总请求数` (and `sum` by `len` of the empty latency list) with
no guard and raises `ZeroDivisionError` — the code contradicts the claim
(and the spec's own testable property, which the sync variant satisfies). -/
theorem empty_run_report :
    async_generate_report 1 0 0 [] = .error () ∧
    sync_generate_report 1 0 0 [] [] = .ok ⟨0, 0, 0, 0, 0, 0, 0, 0⟩ := by
  constructor
  · rfl
  · simp only [sync_generate_report, pyDiv, sync_jitter, max_cycle, min_cycle]
    norm_num
    rfl

/-! ## Warm-up cycle exclusion (C6)

`async_client.py run_test` (lines 186-212) starts with `warmup_cycles = 10`
and, after each cycle, appends the cycle duration only when
`warmup_cycles <= 0`, decrementing the counter otherwise.
`client.py run_test` (lines 176-184) appends `actual_ms` to `周期记录` on
every cycle whose busy-wait returns — it has no warm-up exclusion. -/

/-- The per-cycle recording decision of the asynchronous `run_test`, applied
to the list of successive cycle durations. -/
def asyncRecordLoop : Nat → List ℚ → List ℚ
  | _, [] => []
  | 0, d :: ds => d :: asyncRecordLoop 0 ds
  | w + 1, _ :: ds => asyncRecordLoop w ds

/-- The cycle records produced by `async_client.py run_test`. -/
def async_recorded_cycles (ds : List ℚ) : List ℚ := asyncRecordLoop 10 ds

/-- The per-cycle recording of `client.py run_test`: every cycle duration is
appended. -/
def syncRecordLoop : List ℚ → List ℚ
  | [] => []
  | d :: ds => d :: syncRecordLoop ds

/-- The cycle records produced by `client.py run_test`. -/
def sync_recorded_cycles (ds : List ℚ) : List ℚ := syncRecordLoop ds

lemma asyncRecordLoop_eq_drop (w : Nat) (ds : List ℚ) :
    asyncRecordLoop w ds = ds.drop w := by
  induction ds generalizing w with
  | nil => cases w <;> rfl
  | cons d ds ih =>
    cases w with
    | zero =>
      simp only [asyncRecordLoop, List.drop_zero]
      rw [ih 0, List.drop_zero]
    | succ w => simpa [asyncRecordLoop] using ih w

lemma syncRecordLoop_eq (ds : List ℚ) : syncRecordLoop ds = ds := by
  induction ds with
  | nil => rfl
  | cons d ds ih => rw [syncRecordLoop, ih]

/-- C6 counterexample: in the synchronous client a first-cycle duration IS
appended to the cycle-record sequence — with a single cycle of 7 ms the
records are `[7]`, not `[]`. -/
theorem sync_first_cycle_recorded :
    sync_recorded_cycles [7] = [7] ∧ (7 : ℚ) ∈ sync_recorded_cycles [7] := by
  constructor
  · rfl
  · rw [show sync_recorded_cycles [7] = [7] from rfl]
    exact List.mem_singleton.mpr rfl

/-- C6 (amended): the asynchronous client excludes exactly the first 10
cycles from the cycle records (the records are the durations after the 10th
cycle, in order), while the synchronous client records every cycle. -/
theorem warmup_exclusion (ds : List ℚ) :
    async_recorded_cycles ds = ds.drop 10 ∧ sync_recorded_cycles ds = ds :=
  ⟨asyncRecordLoop_eq_drop 10 ds, syncRecordLoop_eq ds⟩

/-! ## Busy-wait timeout guards (C7)

`client.py _busy_wait_1ms` (lines 43-76) polls `QueryPerformanceCounter`
against `target = start + freq // 1000` and raises `TimeoutError` when its
elapsed time exceeds the guard (default 5 s).  `client.py _busy_wait`
(lines 78-82) and `async_client.py _busy_wait` (lines 70-78) spin on the
clock with NO guard and no way to raise.  Clocks are modelled as the
sequence of readings the loop would observe (`clock 0` is the start
reading); `fuel` bounds the modelled iterations, `none` meaning the loop is
still spinning after that many iterations. -/

/-- `client.py _busy_wait`: `while perf_counter() - start < target_delay:
pass`.  Returns the index of the clock reading at which the loop exits. -/
def busy_wait (clock : Nat → ℚ) (target : ℚ) : Nat → Nat → Option Nat
  | _, 0 => none
  | k, fuel + 1 =>
    if clock k - clock 0 < target then busy_wait clock target (k + 1) fuel
    else some k

/-- `async_client.py _busy_wait`: `break` once `current - start >=
target_delay`, otherwise (possibly after a 1 ms sleep) poll again. -/
def async_busy_wait (clock : Nat → ℚ) (target : ℚ) : Nat → Nat → Option Nat
  | _, 0 => none
  | k, fuel + 1 =>
    if target ≤ clock k - clock 0 then some k
    else async_busy_wait clock target (k + 1) fuel

/-- `client.py _busy_wait_1ms`: integer QPC counters; return the measured
elapsed milliseconds once `remaining_ms <= 0`, raise `TimeoutError`
(`.error ()`) once `elapsed > timeout`, else sleep briefly and poll again. -/
def busy_wait_1ms (freq : ℤ) (clock : Nat → ℤ) (timeout : ℚ) :
    Nat → Nat → Option (Except Unit ℚ)
  | _, 0 => none
  | k, fuel + 1 =>
    let start := clock 0
    let tgt := start + freq / 1000
    let now := clock k
    let remaining_ms : ℚ := ((tgt - now : ℤ) : ℚ) * 1000 / (freq : ℚ)
    if remaining_ms ≤ 0 then
      some (.ok (((now - start : ℤ) : ℚ) * 1000 / (freq : ℚ)))
    else if timeout < ((now - start : ℤ) : ℚ) / (freq : ℚ) then some (.error ())
    else busy_wait_1ms freq clock timeout (k + 1) fuel

lemma busy_wait_ret (clock : Nat → ℚ) (target : ℚ) :
    ∀ fuel k j, busy_wait clock target k fuel = some j → target ≤ clock j - clock 0 := by
  intro fuel
  induction fuel with
  | zero => intro k j h; exact absurd h (by simp [busy_wait])
  | succ fuel ih =>
    intro k j h
    rw [busy_wait] at h
    split at h
    · exact ih (k + 1) j h
    · next hge =>
      cases h
      exact le_of_not_lt hge

lemma async_busy_wait_ret (clock : Nat → ℚ) (target : ℚ) :
    ∀ fuel k j, async_busy_wait clock target k fuel = some j →
      target ≤ clock j - clock 0 := by
  intro fuel
  induction fuel with
  | zero => intro k j h; exact absurd h (by simp [async_busy_wait])
  | succ fuel ih =>
    intro k j h
    rw [async_busy_wait] at h
    split at h
    · next hge => cases h; exact hge
    · exact ih (k + 1) j h

/-- C7 counterexample: `client.py _busy_wait` is a busy-spin of the cycle
scheduler with no timeout guard.  With a clock advancing 1 s per reading and
`target_delay = 10` s, after 8 iterations its elapsed time is 8 s > 5 s yet
it is still spinning and has raised nothing, and with more fuel it returns
normally at 10 s instead of raising `TimeoutError` at 5 s. -/
theorem busy_wait_has_no_timeout_guard :
    busy_wait (fun k => (k : ℚ)) 10 1 8 = none ∧
    busy_wait (fun k => (k : ℚ)) 10 1 20 = some 10 ∧
    ((8 : ℚ) - (0 : ℚ) > 5) := by
  refine ⟨?_, ?_, by norm_num⟩ <;> · norm_num [busy_wait]

/-- C7 (amended): only `_busy_wait_1ms` has the 5 s default timeout guard:
whenever it raises `TimeoutError` some clock reading showed elapsed time
above the guard, and whenever it returns it returns the measured elapsed
milliseconds of a reading at which the target had been reached.  The generic
`_busy_wait` spins (sync and async) return only once the clock shows the
target delay elapsed and have no timeout outcome at all. -/
theorem busy_wait_guard_classification (freq : ℤ) (clock : Nat → ℤ) (timeout : ℚ)
    (clk : Nat → ℚ) (target : ℚ) (k fuel : Nat) :
    (busy_wait_1ms freq clock timeout k fuel = some (.error ()) →
      ∃ j, timeout < ((clock j - clock 0 : ℤ) : ℚ) / (freq : ℚ)) ∧
    (∀ v, busy_wait_1ms freq clock timeout k fuel = some (.ok v) →
      ∃ j, ((clock 0 + freq / 1000 - clock j : ℤ) : ℚ) * 1000 / (freq : ℚ) ≤ 0 ∧
           v = ((clock j - clock 0 : ℤ) : ℚ) * 1000 / (freq : ℚ)) ∧
    (∀ j, busy_wait clk target k fuel = some j → target ≤ clk j - clk 0) ∧
    (∀ j, async_busy_wait clk target k fuel = some j → target ≤ clk j - clk 0) := by
  refine ⟨?_, ?_, fun j => busy_wait_ret clk target fuel k j,
          fun j => async_busy_wait_ret clk target fuel k j⟩
  · induction fuel generalizing k with
    | zero => intro h; exact absurd h (by simp [busy_wait_1ms])
    | succ fuel ih =>
      intro h
      rw [busy_wait_1ms] at h
      split at h
      · cases h
      · split at h
        · next hto => cases h; exact ⟨k, hto⟩
        · exact ih (k + 1) h
  · induction fuel generalizing k with
    | zero => intro v h; exact absurd h (by simp [busy_wait_1ms])
    | succ fuel ih =>
      intro v h
      rw [busy_wait_1ms] at h
      split at h
      · next hrem => cases h; exact ⟨k, hrem, rfl⟩
      · split at h
        · cases h
        · exact ih (k + 1) v h

/-! ## `src/core/async_connection.py` — `AsyncModbusConnection` (C8) -/

structure AsyncPool where
  connections : List (Option Conn)
  initialized : Bool
deriving DecidableEq, Repr

/-- `initialize` (lines 17-27): guarded by `if not self._initialized`; once
`_initialized` is `True` it does nothing at all.  `fresh` is the list of
connections its `_create_connection` calls would produce. -/
def initializePool (fresh : List Conn) (p : AsyncPool) : AsyncPool :=
  if p.initialized then p
  else { connections := fresh.map some, initialized := true }

/-- The healthy-connection scan inside `get_connection` (lines 56-71):
return the first non-`None` slot whose `connected` flag is set. -/
def scanConnections (conns : List (Option Conn)) : Option Conn :=
  conns.findSome? (fun oc =>
    match oc with
    | some c => if c.healthy then some c else none
    | none => none)

/-- The retry loop of `get_connection` (lines 54-79), with `n` attempts
remaining: scan; if no healthy connection and another attempt remains,
sleep 1 s and call `initialize()` again; after the last failed scan raise
`ConnectionError`.  Returns the result, the final pool state and the
recorded sleeps. -/
def getConnLoop (fresh : List Conn) : AsyncPool → Nat → Except Unit Conn × AsyncPool × List ℚ
  | p, 0 => (.error (), p, [])
  | p, n + 1 =>
    match scanConnections p.connections with
    | some c => (.ok c, p, [])
    | none =>
      if n = 0 then (.error (), p, [])
      else
        let p1 := initializePool fresh p
        let r := getConnLoop fresh p1 n
        (r.1, r.2.1, 1 :: r.2.2)

/-- `get_connection` (lines 50-79): `await self.initialize()`, then the
3-attempt scan/rebuild loop. -/
def async_get_connection (fresh : List Conn) (p : AsyncPool) :
    Except Unit Conn × AsyncPool × List ℚ :=
  getConnLoop fresh (initializePool fresh p) 3

/-- C8: the rebuild never happens.  With a pool already marked initialized
whose two connections are both dead, and a transport that would supply a
healthy connection on any rebuild, `get_connection` sleeps twice, re-scans
the SAME dead list each time (because `initialize()` is a no-op once
`_initialized` is `True`) and raises `ConnectionError`, leaving the dead
connections in place.  Had the pool not been marked initialized, the very
same call would succeed with the freshly created healthy connection —
which is what the claim (and the code's own "尝试重建" log line) promise. -/
theorem async_get_connection_never_rebuilds :
    async_get_connection [⟨true⟩] ⟨[some ⟨false⟩, some ⟨false⟩], true⟩ =
      (.error (), ⟨[some ⟨false⟩, some ⟨false⟩], true⟩, [1, 1]) ∧
    async_get_connection [⟨true⟩] ⟨[some ⟨false⟩, some ⟨false⟩], false⟩ =
      (.ok ⟨true⟩, ⟨[some ⟨true⟩], true⟩, []) := by
  constructor <;> rfl

/-! ## `get_persistent_connection` exponential backoff (C9)

`connection.py get_persistent_connection` (lines 115-134): when no live
health-checked connection exists, `retry_count = 0`; `while retry_count <
3`: `_create_connection(persistent=True)`; on success return it; otherwise
`retry_count += 1; time.sleep(2 ** retry_count)`.  Exhausting the loop
raises `ConnectionError`.  So the sleeps after the three failed attempts are
`2, 4, 8` seconds — `2^(attempt+1)`, not `2^attempt` — and the sleep also
happens after the final attempt, before the raise. -/

/-- The reconnection loop; `attempts k` is the outcome of the `k`-th
`_create_connection(persistent=True)` call.  Returns the result and the
recorded sleep durations in seconds. -/
def persistentRetryLoop (attempts : Nat → Option Conn) (retry_count : Nat) :
    Except Unit Conn × List ℚ :=
  if retry_count < 3 then
    match attempts retry_count with
    | some c => (.ok c, [])
    | none =>
      let r := persistentRetryLoop attempts (retry_count + 1)
      (r.1, ((2 : ℚ) ^ (retry_count + 1)) :: r.2)
  else (.error (), [])
termination_by 3 - retry_count

/-- The reconnection path of `get_persistent_connection` (no live
connection): run the retry loop from `retry_count = 0`. -/
def get_persistent_connection (attempts : Nat → Option Conn) :
    Except Unit Conn × List ℚ :=
  persistentRetryLoop attempts 0

/-- C9 counterexample: with every reconnection attempt failing, the code
sleeps `[2, 4, 8]` seconds — not the claimed `[1, 2, 4]` — and then raises
`ConnectionError`. -/
theorem persistent_backoff_delays :
    get_persistent_connection (fun _ => none) = (.error (), [2, 4, 8]) ∧
    ([2, 4, 8] : List ℚ) ≠ [1, 2, 4] := by
  constructor
  · unfold get_persistent_connection
    rw [persistentRetryLoop, if_pos (by omega : (0 : Nat) < 3)]
    rw [persistentRetryLoop, if_pos (by omega : (1 : Nat) < 3)]
    rw [persistentRetryLoop, if_pos (by omega : (2 : Nat) < 3)]
    rw [persistentRetryLoop, if_neg (by omega : ¬ (3 : Nat) < 3)]
    norm_num
  · simp

/-- C9 (amended): when no live connection exists and every reconnection
attempt fails, `get_persistent_connection` makes exactly 3 attempts, sleeps
`2^(attempt+1)` seconds after each failed attempt (delays 2 s, 4 s, 8 s —
including one after the final attempt) and then raises `ConnectionError`. -/
theorem persistent_backoff_amended (attempts : Nat → Option Conn)
    (hfail : ∀ k, k < 3 → attempts k = none) :
    get_persistent_connection attempts = (.error (), [2, 4, 8]) := by
  have h0 := hfail 0 (by omega)
  have h1 := hfail 1 (by omega)
  have h2 := hfail 2 (by omega)
  unfold get_persistent_connection
  rw [persistentRetryLoop, if_pos (by omega : (0 : Nat) < 3), h0]
  rw [persistentRetryLoop, if_pos (by omega : (1 : Nat) < 3), h1]
  rw [persistentRetryLoop, if_pos (by omega : (2 : Nat) < 3), h2]
  rw [persistentRetryLoop, if_neg (by omega : ¬ (3 : Nat) < 3)]
  norm_num

/-- C9 witness: the amended statement at the always-failing transport. -/
theorem persistent_backoff_amended_witness :
    get_persistent_connection (fun _ => none) = (.error (), [2, 4, 8]) :=
  persistent_backoff_amended (fun _ => none) (fun _ _ => rfl)

/-! ## `_random_operation` counter invariant (C10) -/

/-- The statistics counters of `client.py` (`总请求数`, `成功请求`,
`失败请求`, `延迟记录`). -/
structure Stats where
  total : Nat
  success : Nat
  failure : Nat
  latencies : List ℚ
deriving DecidableEq, Repr

/-- The statistics of `async_client.py`: counters plus per-kind latency
sequences, the combined sequence and the running max/min. -/
structure AsyncStats where
  total : Nat
  success : Nat
  failure : Nat
  readInput : List ℚ
  readHolding : List ℚ
  writeRegs : List ℚ
  allMsgs : List ℚ
  maxLat : ℚ
  minLat : ℚ
deriving DecidableEq, Repr

/-- Which Modbus operation `op_type` selected. -/
inductive OpKind where
  | readInput
  | readHolding
  | writeRegs
deriving DecidableEq, Repr

/-- How the attempted operation ended: success with a measured latency, a
`ModbusException`, or any other exception (which propagates out). -/
inductive OpOutcome where
  | ok (latency : ℚ)
  | modbusError
  | otherError
deriving DecidableEq, Repr

/-- `client.py _random_operation` (lines 84-119): on success append the
latency and `成功请求 += 1`, return `True`; on `ModbusException`
`失败请求 += 1`, return `False`; the `finally` block increments `总请求数`
in all cases, including when another exception propagates (result `none`). -/
def random_operation (st : Stats) (out : OpOutcome) : Option Bool × Stats :=
  match out with
  | .ok lat =>
    (some true, { st with latencies := st.latencies ++ [lat],
                          success := st.success + 1, total := st.total + 1 })
  | .modbusError =>
    (some false, { st with failure := st.failure + 1, total := st.total + 1 })
  | .otherError => (none, { st with total := st.total + 1 })

/-- `async_client.py _random_operation` (lines 80-118): same control
structure; on success it additionally appends the latency to the chosen
kind's sequence and to `所有报文` and updates the running max/min. -/
def async_random_operation (st : AsyncStats) (kind : OpKind) (out : OpOutcome) :
    Option Bool × AsyncStats :=
  match out with
  | .ok lat =>
    let st1 :=
      match kind with
      | .readInput => { st with readInput := st.readInput ++ [lat] }
      | .readHolding => { st with readHolding := st.readHolding ++ [lat] }
      | .writeRegs => { st with writeRegs := st.writeRegs ++ [lat] }
    (some true, { st1 with allMsgs := st1.allMsgs ++ [lat],
                           maxLat := max st1.maxLat lat,
                           minLat := min st1.minLat lat,
                           success := st1.success + 1, total := st1.total + 1 })
  | .modbusError =>
    (some false, { st with failure := st.failure + 1, total := st.total + 1 })
  | .otherError => (none, { st with total := st.total + 1 })

/-- C10: in both clients, whenever `_random_operation` returns normally
(`True` or `False`), it increments the total counter by exactly 1 and
exactly one of the success counter (on `True`) or the failure counter (on
`False`) by exactly 1 — so `total = success + failure` is preserved. -/
theorem random_operation_counter_invariant (st : Stats) (ast : AsyncStats)
    (out : OpOutcome) (kind : OpKind) (b : Bool)
    (h : st.total = st.success + st.failure)
    (ha : ast.total = ast.success + ast.failure) :
    ((random_operation st out).1 = some b →
      ((random_operation st out).2.total
          = (random_operation st out).2.success + (random_operation st out).2.failure ∧
       (random_operation st out).2.total = st.total + 1 ∧
       (b = true → (random_operation st out).2.success = st.success + 1 ∧
                   (random_operation st out).2.failure = st.failure) ∧
       (b = false → (random_operation st out).2.failure = st.failure + 1 ∧
                    (random_operation st out).2.success = st.success))) ∧
    ((async_random_operation ast kind out).1 = some b →
      ((async_random_operation ast kind out).2.total
          = (async_random_operation ast kind out).2.success
            + (async_random_operation ast kind out).2.failure ∧
       (async_random_operation ast kind out).2.total = ast.total + 1 ∧
       (b = true → (async_random_operation ast kind out).2.success = ast.success + 1 ∧
                   (async_random_operation ast kind out).2.failure = ast.failure) ∧
       (b = false → (async_random_operation ast kind out).2.failure = ast.failure + 1 ∧
                    (async_random_operation ast kind out).2.success = ast.success))) := by
  constructor
  · intro hb
    cases out with
    | ok lat =>
      have hb2 : (some true : Option Bool) = some b := hb
      injection hb2 with h2
      refine ⟨?_, rfl, fun _ => ⟨rfl, rfl⟩, ?_⟩
      · show st.total + 1 = st.success + 1 + st.failure
        omega
      · intro hf
        rw [← h2] at hf
        cases hf
    | modbusError =>
      have hb2 : (some false : Option Bool) = some b := hb
      injection hb2 with h2
      refine ⟨?_, rfl, ?_, fun _ => ⟨rfl, rfl⟩⟩
      · show st.total + 1 = st.success + (st.failure + 1)
        omega
      · intro ht
        rw [← h2] at ht
        cases ht
    | otherError =>
      have hb2 : (none : Option Bool) = some b := hb
      exact Option.noConfusion hb2
  · intro hb
    cases out with
    | ok lat =>
      have hb2 : (some true : Option Bool) = some b := hb
      injection hb2 with h2
      cases kind <;>
        refine ⟨?_, rfl, fun _ => ⟨rfl, rfl⟩, ?_⟩ <;>
        first
        | · show ast.total + 1 = ast.success + 1 + ast.failure
            omega
        | · intro hf
            rw [← h2] at hf
            cases hf
    | modbusError =>
      have hb2 : (some false : Option Bool) = some b := hb
      injection hb2 with h2
      refine ⟨?_, rfl, ?_, fun _ => ⟨rfl, rfl⟩⟩
      · show ast.total + 1 = ast.success + (ast.failure + 1)
        omega
      · intro ht
        rw [← h2] at ht
        cases ht
    | otherError =>
      have hb2 : (none : Option Bool) = some b := hb
      exact Option.noConfusion hb2

/-- C10 witness: the invariant theorem applied at fresh statistics and a
successful 5 ms read of input registers. -/
theorem random_operation_counter_invariant_witness :
    ((random_operation ⟨0, 0, 0, []⟩ (.ok 5)).1 = some true →
      ((random_operation ⟨0, 0, 0, []⟩ (.ok 5)).2.total
          = (random_operation ⟨0, 0, 0, []⟩ (.ok 5)).2.success
            + (random_operation ⟨0, 0, 0, []⟩ (.ok 5)).2.failure ∧
       (random_operation ⟨0, 0, 0, []⟩ (.ok 5)).2.total = 0 + 1 ∧
       (true = true → (random_operation ⟨0, 0, 0, []⟩ (.ok 5)).2.success = 0 + 1 ∧
                      (random_operation ⟨0, 0, 0, []⟩ (.ok 5)).2.failure = 0) ∧
       (true = false → (random_operation ⟨0, 0, 0, []⟩ (.ok 5)).2.failure = 0 + 1 ∧
                       (random_operation ⟨0, 0, 0, []⟩ (.ok 5)).2.success = 0))) ∧
    ((async_random_operation ⟨0, 0, 0, [], [], [], [], 0, 0⟩ .readInput (.ok 5)).1
        = some true →
      ((async_random_operation ⟨0, 0, 0, [], [], [], [], 0, 0⟩ .readInput (.ok 5)).2.total
          = (async_random_operation ⟨0, 0, 0, [], [], [], [], 0, 0⟩ .readInput (.ok 5)).2.success
            + (async_random_operation ⟨0, 0, 0, [], [], [], [], 0, 0⟩ .readInput (.ok 5)).2.failure ∧
       (async_random_operation ⟨0, 0, 0, [], [], [], [], 0, 0⟩ .readInput (.ok 5)).2.total = 0 + 1 ∧
       (true = true →
         (async_random_operation ⟨0, 0, 0, [], [], [], [], 0, 0⟩ .readInput (.ok 5)).2.success = 0 + 1 ∧
         (async_random_operation ⟨0, 0, 0, [], [], [], [], 0, 0⟩ .readInput (.ok 5)).2.failure = 0) ∧
       (true = false →
         (async_random_operation ⟨0, 0, 0, [], [], [], [], 0, 0⟩ .readInput (.ok 5)).2.failure = 0 + 1 ∧
         (async_random_operation ⟨0, 0, 0, [], [], [], [], 0, 0⟩ .readInput (.ok 5)).2.success = 0))) :=
  random_operation_counter_invariant ⟨0, 0, 0, []⟩ ⟨0, 0, 0, [], [], [], [], 0, 0⟩
    (.ok 5) .readInput true rfl rfl

end ModbusStress
